import Mathlib

/-!
Shallow embedding of the schema-diff engine of `db_validator.py`
(`get_db_structure`, `compare_databases`, `generate_sync_sql`).

Modelling choices:
* A pandas `DataFrame` of structure rows is a `List Row` (one entry per column
  of a database, in discovery order); `df.empty` is `df = []`.
* The nested dictionaries built by `create_lookup` are association lists with
  Python `dict` semantics: assignment overwrites in place, new keys append.
* Python `set` objects are modelled by the (duplicate-free) list of elements
  together with an explicit iteration-order parameter `ord`, because CPython
  iterates a set of strings in an order that depends on the per-process hash
  seed.  Every actual run corresponds to some `ord` that permutes its input.
* Database access in `generate_sync_sql` is abstracted into provider
  functions: `td` for `SHOW CREATE TABLE` (may fail), `cd` for
  `SHOW COLUMNS ... WHERE Field = ...` (may fail, or find no row), and a
  `connect` value for the initial `engine1.connect()`.
* `get_db_structure`'s introspection input is `Except`: `error` models any
  exception raised while connecting/enumerating.  A column's `default` entry
  is `Option (Option String)`: `none` = key absent from the dict,
  `some none` = key present holding Python `None`, `some (some v)` = an
  actual default rendered by `str` as `v`.
-/

namespace DBValidator

/-- One row of the structure DataFrame built by `get_db_structure`:
`{"Database": label, "Table": ..., "Column": ..., "Type": ..., "Nullable": ..., "Default": ...}`. -/
structure Row where
  database : String
  table : String
  column : String
  type : String
  nullable : Bool
  default : String
deriving DecidableEq

/-- One row of the differences DataFrame produced by `compare_databases`:
`{"Table": ..., "Column": ..., "Difference Type": ..., "DB1 Value": ..., "DB2 Value": ...}`. -/
structure Diff where
  table : String
  column : String
  diffType : String
  db1Value : String
  db2Value : String
deriving DecidableEq

/-- Python dict assignment `cols[c] = r` on the inner `Column -> row` dict:
overwrite in place if the key exists, else append. -/
def insertCol (cols : List (String × Row)) (c : String) (r : Row) : List (String × Row) :=
  match cols with
  | [] => [(c, r)]
  | (c', r') :: rest => if c' = c then (c, r) :: rest else (c', r') :: insertCol rest c r

/-- `lookup[table][col] = row` (creating `lookup[table]` when absent), as in
`create_lookup`'s loop body. -/
def insertRow (lk : List (String × List (String × Row))) (t c : String) (r : Row) :
    List (String × List (String × Row)) :=
  match lk with
  | [] => [(t, [(c, r)])]
  | (t', cols) :: rest =>
      if t' = t then (t', insertCol cols c r) :: rest
      else (t', cols) :: insertRow rest t c r

/-- `create_lookup(df)`: `Table -> \x7bColumn -> RowData\x7d` built by iterating the rows. -/
def create_lookup (df : List Row) : List (String × List (String × Row)) :=
  df.foldl (fun lk row => insertRow lk row.table row.column row) []

/-- Python dict lookup on an association list (first matching key). -/
def lookupA {α : Type} (l : List (String × α)) (k : String) : Option α :=
  match l with
  | [] => none
  | (k', v) :: rest => if k' = k then some v else lookupA rest k

/-- The record appended for a table in DB1 but not DB2. -/
def missingTableRec (t : String) : Diff :=
  ⟨t, "ALL", "Missing Table in DB2", "Exists", "Missing"⟩

/-- The record appended for a table in DB2 but not DB1. -/
def extraTableRec (t : String) : Diff :=
  ⟨t, "ALL", "Extra Table in DB2", "Missing", "Exists"⟩

/-- The record appended for a column in DB1 but not DB2 (on a common table). -/
def missingColRec (t c : String) : Diff :=
  ⟨t, c, "Missing Column in DB2", "Exists", "Missing"⟩

/-- The record appended for a column in DB2 but not DB1 (on a common table). -/
def extraColRec (t c : String) : Diff :=
  ⟨t, c, "Extra Column in DB2", "Missing", "Exists"⟩

/-- The record appended when the `Type` strings of a common column differ. -/
def typeMismatchRec (t c ty1 ty2 : String) : Diff :=
  ⟨t, c, "Type Mismatch", ty1, ty2⟩

/-- Python `str` on a `bool`. -/
def pyStr (b : Bool) : String := if b then "True" else "False"

/-- The record appended when the `Nullable` flags of a common column differ. -/
def nullableMismatchRec (t c : String) (n1 n2 : Bool) : Diff :=
  ⟨t, c, "Nullable Mismatch", pyStr n1, pyStr n2⟩

/-- The body of the common-column loop: compare `Type`, then `Nullable`, of the
rows stored for column `c` on table `t` in the two lookups. -/
def commonColDiffs (t c : String) (cols1 cols2 : List (String × Row)) : List Diff :=
  match lookupA cols1 c, lookupA cols2 c with
  | some r1, some r2 =>
      (if r1.type ≠ r2.type then [typeMismatchRec t c r1.type r2.type] else []) ++
      (if r1.nullable ≠ r2.nullable then [nullableMismatchRec t c r1.nullable r2.nullable] else [])
  | _, _ => []

/-- The per-common-table part of `compare_databases`: missing columns, extra
columns, then the common-column comparisons, each set iterated through `ord`. -/
def tableColDiffs (ord : List String → List String) (t : String)
    (cols1 cols2 : List (String × Row)) : List Diff :=
  let n1 := cols1.map Prod.fst
  let n2 := cols2.map Prod.fst
  ((ord (n1.filter (fun c => decide (c ∉ n2)))).map (missingColRec t)) ++
  ((ord (n2.filter (fun c => decide (c ∉ n1)))).map (extraColRec t)) ++
  ((ord (n1.filter (fun c => decide (c ∈ n2)))).flatMap (fun c => commonColDiffs t c cols1 cols2))

/-- The body of the common-table loop: fetch `db1_lookup[table]` and
`db2_lookup[table]` and compare their columns. -/
def commonTableDiffs (ord : List String → List String)
    (lk1 lk2 : List (String × List (String × Row))) (t : String) : List Diff :=
  match lookupA lk1 t, lookupA lk2 t with
  | some cols1, some cols2 => tableColDiffs ord t cols1 cols2
  | _, _ => []

/-- `compare_databases(df1, df2)`.  `ord` supplies the iteration order of each
Python set of names (any permutation of its elements); the record list is
otherwise exactly the sequence of `diffs.append(...)` calls of the source. -/
def compare_databases (ord : List String → List String) (df1 df2 : List Row) : List Diff :=
  if df1 = [] then []
  else
    let lk1 := create_lookup df1
    let lk2 := create_lookup df2
    let t1 := lk1.map Prod.fst
    let t2 := lk2.map Prod.fst
    ((ord (t1.filter (fun t => decide (t ∉ t2)))).map missingTableRec) ++
    ((ord (t2.filter (fun t => decide (t ∉ t1)))).map extraTableRec) ++
    ((ord (t1.filter (fun t => decide (t ∈ t2)))).flatMap (commonTableDiffs ord lk1 lk2))

/-! ### `generate_sync_sql` -/

/-- One row of MySQL `SHOW COLUMNS`: `Field, Type, Null, Key, Default, Extra`.
`Default` is `NULL`-able, the rest arrive as strings. -/
structure ColInfo where
  field : String
  type : String
  null : String
  key : String
  default : Option String
  extra : String
deriving DecidableEq

/-- `null_str = "NOT NULL" if null == "NO" else "NULL"`. -/
def renderNull (null : String) : String := if null = "NO" then "NOT NULL" else "NULL"

/-- The `default_str` computation: a quoted literal when a default exists,
`DEFAULT NULL` when there is no default but the column is nullable, else empty. -/
def renderDefault (null : String) (default : Option String) : String :=
  match default with
  | some d => "DEFAULT '" ++ d ++ "'"
  | none => if null = "YES" then "DEFAULT NULL" else ""

/-- The two lines appended for a missing table: explanatory comment plus the
`SHOW CREATE TABLE` text with `;\n` appended — or a single error comment when
fetching the definition raised. -/
def createTableLines (td : String → Except String String) (t : String) : List String :=
  match td t with
  | .ok createStmt => ["-- Missing Table: " ++ t, createStmt ++ ";\n"]
  | .error e => ["-- Error generating CREATE TABLE for " ++ t ++ ": " ++ e]

/-- The `ALTER TABLE ... ADD COLUMN` statement string. -/
def addColumnSQL (t c : String) (ci : ColInfo) : String :=
  "ALTER TABLE `" ++ t ++ "` ADD COLUMN `" ++ c ++ "` " ++ ci.type ++ " " ++
    renderNull ci.null ++ " " ++ renderDefault ci.null ci.default ++ " " ++ ci.extra ++ ";"

/-- The `ALTER TABLE ... MODIFY COLUMN` statement string. -/
def modifyColumnSQL (t c : String) (ci : ColInfo) : String :=
  "ALTER TABLE `" ++ t ++ "` MODIFY COLUMN `" ++ c ++ "` " ++ ci.type ++ " " ++
    renderNull ci.null ++ " " ++ renderDefault ci.null ci.default ++ " " ++ ci.extra ++ ";"

/-- The lines appended for one difference row inside a table group (the body of
the `for _, row in group.iterrows()` loop).  `cd t c` models
`SHOW COLUMNS FROM t WHERE Field = c` + `fetchone()`: it may raise (`error`),
find no row (`ok none`, in which case nothing is appended), or return the
column info. -/
def rowStatements (cd : String → String → Except String (Option ColInfo)) (t : String)
    (d : Diff) : List String :=
  if d.diffType = "Missing Column in DB2" then
    match cd t d.column with
    | .ok (some ci) =>
        ["-- Missing Column: " ++ t ++ "." ++ d.column, addColumnSQL t d.column ci]
    | .ok none => []
    | .error e => ["-- Error getting definition for " ++ t ++ "." ++ d.column ++ ": " ++ e]
  else if d.diffType = "Type Mismatch" ∨ d.diffType = "Nullable Mismatch" then
    match cd t d.column with
    | .ok (some ci) =>
        ["-- Mismatch: " ++ t ++ "." ++ d.column ++ " (" ++ d.diffType ++ ")",
         modifyColumnSQL t d.column ci]
    | .ok none => []
    | .error e => ["-- Error getting definition for " ++ t ++ "." ++ d.column ++ ": " ++ e]
  else []

/-- Processing of one `groupby` group: if the group holds a missing-table row,
emit the create-table block and `continue` (skip all column handling for that
table); otherwise run the per-row loop. -/
def processTable (td : String → Except String String)
    (cd : String → String → Except String (Option ColInfo))
    (t : String) (g : List Diff) : List String :=
  if g.filter (fun d => decide (d.diffType = "Missing Table in DB2")) ≠ [] then
    createTableLines td t
  else
    (g.map (rowStatements cd t)).flatten

/-- The group keys of `diff_df.groupby("Table")`: the distinct table names in
ascending order (pandas sorts group keys by default). -/
def sortedTables (diffs : List Diff) : List String :=
  List.insertionSort (· ≤ ·) (diffs.map (·.table)).dedup

/-- `generate_sync_sql(diff_df, engine1)`.  `connect` models
`engine1.connect()` (the surrounding `try`), `td` and `cd` the definition
queries against DB1.  Returns the final `"\n".join(sql_statements)`. -/
def generate_sync_sql (connect : Except String Unit)
    (td : String → Except String String)
    (cd : String → String → Except String (Option ColInfo))
    (diffs : List Diff) : String :=
  if diffs = [] then ""
  else
    match connect with
    | .error e => "-- Error connecting to DB1 for SQL generation: " ++ e
    | .ok _ =>
        String.intercalate "\n"
          (((sortedTables diffs).map
              (fun t => processTable td cd t (diffs.filter (fun d => decide (d.table = t))))).flatten)

/-! ### `get_db_structure` -/

/-- One entry of `inspector.get_columns(table)`.  The `default` key:
`none` = key absent from the dict, `some none` = key present holding `None`,
`some (some v)` = a default whose `str` rendering is `v`. -/
structure IntroCol where
  name : String
  type : String
  nullable : Bool
  default : Option (Option String)
deriving DecidableEq

/-- `str(column.get('default', ''))`: the fallback `''` stringifies to the
empty string, Python `None` stringifies to `"None"`, and an actual value to
its `str` text. -/
def renderIntroDefault (d : Option (Option String)) : String :=
  match d with
  | none => ""
  | some none => "None"
  | some (some v) => v

/-- `get_db_structure(db_url, db_label)`.  The introspection side is the
`Except` input: `error e` models any exception raised while connecting or
enumerating (caught by the `except`, which prints a diagnostic and returns
`[]`); `ok tables` is the per-table column enumeration.  Returns the rows
plus the diagnostic side channel (`some` of the printed error line). -/
def get_db_structure (intro : Except String (List (String × List IntroCol)))
    (label : String) : List Row × Option String :=
  match intro with
  | .error e => ([], some ("Error connecting to " ++ label ++ ": " ++ e))
  | .ok tables =>
      (tables.flatMap (fun p => p.2.map (fun c =>
        { database := label, table := p.1, column := c.name, type := c.type,
          nullable := c.nullable, default := renderIntroDefault c.default })), none)

/-! ### Structural lemmas about the lookup dictionaries -/

theorem lookupA_insertCol_self (cols : List (String × Row)) (c : String) (r : Row) :
    lookupA (insertCol cols c r) c = some r := by
  induction cols with
  | nil => simp [insertCol, lookupA]
  | cons hd tl ih =>
      obtain ⟨c', r'⟩ := hd
      by_cases h : c' = c
      · simp [insertCol, h, lookupA]
      · simp [insertCol, h, lookupA, ih]

theorem lookupA_insertCol_ne (cols : List (String × Row)) (c : String) (r : Row)
    (c' : String) (h : c' ≠ c) :
    lookupA (insertCol cols c r) c' = lookupA cols c' := by
  induction cols with
  | nil => simp [insertCol, lookupA, Ne.symm h]
  | cons hd tl ih =>
      obtain ⟨c₀, r₀⟩ := hd
      by_cases h0 : c₀ = c
      · subst h0
        simp [insertCol, lookupA, Ne.symm h]
      · by_cases h1 : c₀ = c'
        · simp [insertCol, h0, lookupA, h1, h]
        · simp [insertCol, h0, lookupA, h1, ih]

theorem keys_insertCol (cols : List (String × Row)) (c : String) (r : Row) :
    (insertCol cols c r).map Prod.fst =
      if c ∈ cols.map Prod.fst then cols.map Prod.fst else cols.map Prod.fst ++ [c] := by
  induction cols with
  | nil => simp [insertCol]
  | cons hd tl ih =>
      obtain ⟨c₀, r₀⟩ := hd
      by_cases h0 : c₀ = c
      · subst h0
        simp [insertCol]
      · have h0' : c ≠ c₀ := fun hh => h0 hh.symm
        by_cases hc : c ∈ tl.map Prod.fst
        · simp [insertCol, h0, ih, hc, h0']
        · simp [insertCol, h0, ih, hc, h0']

theorem nodup_keys_insertCol (cols : List (String × Row)) (c : String) (r : Row)
    (h : (cols.map Prod.fst).Nodup) : ((insertCol cols c r).map Prod.fst).Nodup := by
  rw [keys_insertCol]
  by_cases hc : c ∈ cols.map Prod.fst
  · simpa [hc] using h
  · simp only [hc, if_false]
    exact List.Nodup.append h (List.nodup_singleton c) (by simpa using hc)

theorem lookupA_insertRow_self (lk : List (String × List (String × Row)))
    (t c : String) (r : Row) :
    lookupA (insertRow lk t c r) t = some (insertCol ((lookupA lk t).getD []) c r) := by
  induction lk with
  | nil => simp [insertRow, lookupA, insertCol]
  | cons hd tl ih =>
      obtain ⟨t₀, cols₀⟩ := hd
      by_cases h0 : t₀ = t
      · subst h0
        simp [insertRow, lookupA]
      · simp [insertRow, h0, lookupA, ih]

theorem lookupA_insertRow_ne (lk : List (String × List (String × Row)))
    (t c : String) (r : Row) (t' : String) (h : t' ≠ t) :
    lookupA (insertRow lk t c r) t' = lookupA lk t' := by
  induction lk with
  | nil => simp [insertRow, lookupA, Ne.symm h]
  | cons hd tl ih =>
      obtain ⟨t₀, cols₀⟩ := hd
      by_cases h0 : t₀ = t
      · subst h0
        simp [insertRow, lookupA, Ne.symm h]
      · by_cases h1 : t₀ = t'
        · simp [insertRow, h0, lookupA, h1, h]
        · simp [insertRow, h0, lookupA, h1, ih]

theorem keys_insertRow (lk : List (String × List (String × Row))) (t c : String) (r : Row) :
    (insertRow lk t c r).map Prod.fst =
      if t ∈ lk.map Prod.fst then lk.map Prod.fst else lk.map Prod.fst ++ [t] := by
  induction lk with
  | nil => simp [insertRow]
  | cons hd tl ih =>
      obtain ⟨t₀, cols₀⟩ := hd
      by_cases h0 : t₀ = t
      · subst h0
        simp [insertRow]
      · have h0' : t ≠ t₀ := fun hh => h0 hh.symm
        by_cases ht : t ∈ tl.map Prod.fst
        · simp [insertRow, h0, ih, ht, h0']
        · simp [insertRow, h0, ih, ht, h0']

theorem lookupA_isSome_iff {α : Type} (l : List (String × α)) (k : String) :
    (lookupA l k).isSome = true ↔ k ∈ l.map Prod.fst := by
  induction l with
  | nil => simp [lookupA]
  | cons hd tl ih =>
      obtain ⟨k₀, v₀⟩ := hd
      by_cases h0 : k₀ = k
      · subst h0
        simp [lookupA]
      · have h0' : k ≠ k₀ := fun hh => h0 hh.symm
        simp [lookupA, h0, h0', ih]

theorem lookupA_eq_none_iff {α : Type} (l : List (String × α)) (k : String) :
    lookupA l k = none ↔ k ∉ l.map Prod.fst := by
  rw [← lookupA_isSome_iff]
  cases lookupA l k <;> simp

/-- Well-formedness of a lookup: the table keys are duplicate-free and so are
the column keys of every stored table. -/
def WFLookup (lk : List (String × List (String × Row))) : Prop :=
  (lk.map Prod.fst).Nodup ∧
  ∀ t cols, lookupA lk t = some cols → (cols.map Prod.fst).Nodup

theorem wf_insertRow (lk : List (String × List (String × Row))) (t c : String) (r : Row)
    (h : WFLookup lk) : WFLookup (insertRow lk t c r) := by
  obtain ⟨hk, hc⟩ := h
  constructor
  · rw [keys_insertRow]
    by_cases ht : t ∈ lk.map Prod.fst
    · simpa [ht] using hk
    · simp only [ht, if_false]
      exact List.Nodup.append hk (List.nodup_singleton t) (by simpa using ht)
  · intro t' cols' hl
    by_cases ht' : t' = t
    · subst ht'
      rw [lookupA_insertRow_self] at hl
      obtain rfl : insertCol ((lookupA lk t').getD []) c r = cols' := by
        simpa using hl
      apply nodup_keys_insertCol
      cases hlk : lookupA lk t' with
      | none => simp
      | some cols => simpa [hlk] using hc t' cols hlk
    · rw [lookupA_insertRow_ne lk t c r t' ht'] at hl
      exact hc t' cols' hl

theorem wf_foldl_insertRow (df : List Row) (lk : List (String × List (String × Row)))
    (h : WFLookup lk) :
    WFLookup (df.foldl (fun lk row => insertRow lk row.table row.column row) lk) := by
  induction df generalizing lk with
  | nil => simpa using h
  | cons row rest ih =>
      simp only [List.foldl_cons]
      exact ih _ (wf_insertRow lk row.table row.column row h)

theorem create_lookup_wf (df : List Row) : WFLookup (create_lookup df) := by
  apply wf_foldl_insertRow
  constructor
  · simp
  · intro t cols h
    simp [lookupA] at h

/-! ### Counting helpers -/

theorem count_map_rec {α : Type} [DecidableEq α] (f : String → α)
    (hf : ∀ a b, f a = f b → a = b) (l : List String) (T : String) :
    (l.map f).count (f T) = l.count T := by
  induction l with
  | nil => simp
  | cons a l ih =>
      by_cases h : a = T
      · subst h
        simp [List.count_cons, ih]
      · have hfa : ¬ f T = f a := fun hc => h (hf _ _ hc.symm)
        have hta : ¬ T = a := fun hc => h hc.symm
        simp [List.count_cons, ih, hfa, hta]

theorem countP_flatMap_mul {α : Type} (p : α → Bool) (f : String → List α)
    (l : List String) (T : String)
    (h0 : ∀ t ∈ l, t ≠ T → (f t).countP p = 0) :
    (l.flatMap f).countP p = l.count T * (f T).countP p := by
  induction l with
  | nil => simp
  | cons a l ih =>
      rw [List.flatMap_cons, List.countP_append,
        ih (fun t ht hne => h0 t (List.mem_cons_of_mem _ ht) hne)]
      by_cases h : a = T
      · subst h
        simp only [List.count_cons, beq_self_eq_true, if_true]
        ring
      · have hta : ¬ T = a := fun hc => h hc.symm
        rw [h0 a (List.mem_cons_self _ _) h]
        simp [List.count_cons, hta]

theorem count_filter_nodup (l : List String) (hl : l.Nodup) (p : String → Bool) (a : String) :
    (l.filter p).count a = if a ∈ l ∧ p a = true then 1 else 0 := by
  by_cases h : a ∈ l ∧ p a = true
  · rw [if_pos h]
    exact List.count_eq_one_of_mem (hl.filter p) (List.mem_filter.mpr ⟨h.1, h.2⟩)
  · rw [if_neg h]
    apply List.count_eq_zero_of_not_mem
    intro hmem
    exact h ⟨(List.mem_filter.mp hmem).1, (List.mem_filter.mp hmem).2⟩

/-! ### Shape of the records emitted by each section of `compare_databases` -/

theorem mem_commonColDiffs {d : Diff} {t c : String} {cols1 cols2 : List (String × Row)}
    (hd : d ∈ commonColDiffs t c cols1 cols2) :
    d.table = t ∧ d.column = c ∧
      (d.diffType = "Type Mismatch" ∨ d.diffType = "Nullable Mismatch") := by
  unfold commonColDiffs at hd
  cases h1 : lookupA cols1 c with
  | none =>
      simp only [h1] at hd
      exact absurd hd (List.not_mem_nil d)
  | some r1 =>
      cases h2 : lookupA cols2 c with
      | none =>
          simp only [h1, h2] at hd
          exact absurd hd (List.not_mem_nil d)
      | some r2 =>
          simp only [h1, h2] at hd
          rcases List.mem_append.mp hd with hd | hd
          · by_cases hty : r1.type ≠ r2.type
            · rw [if_pos hty] at hd
              simp only [List.mem_singleton] at hd
              subst hd
              simp [typeMismatchRec]
            · rw [if_neg hty] at hd
              simp at hd
          · by_cases hnu : r1.nullable ≠ r2.nullable
            · rw [if_pos hnu] at hd
              simp only [List.mem_singleton] at hd
              subst hd
              simp [nullableMismatchRec]
            · rw [if_neg hnu] at hd
              simp at hd

theorem mem_tableColDiffs {ord : List String → List String} {d : Diff} {t : String}
    {cols1 cols2 : List (String × Row)} (hd : d ∈ tableColDiffs ord t cols1 cols2) :
    d.table = t ∧ (d.diffType = "Missing Column in DB2" ∨ d.diffType = "Extra Column in DB2" ∨
      d.diffType = "Type Mismatch" ∨ d.diffType = "Nullable Mismatch") := by
  simp only [tableColDiffs, List.mem_append] at hd
  rcases hd with (hd | hd) | hd
  · rcases List.mem_map.mp hd with ⟨c, _, rfl⟩
    simp [missingColRec]
  · rcases List.mem_map.mp hd with ⟨c, _, rfl⟩
    simp [extraColRec]
  · rcases List.mem_flatMap.mp hd with ⟨c, _, hdc⟩
    have h := mem_commonColDiffs hdc
    exact ⟨h.1, Or.inr (Or.inr h.2.2)⟩

theorem mem_commonTableDiffs {ord : List String → List String}
    {lk1 lk2 : List (String × List (String × Row))} {t : String} {d : Diff}
    (hd : d ∈ commonTableDiffs ord lk1 lk2 t) :
    d.table = t ∧ (d.diffType = "Missing Column in DB2" ∨ d.diffType = "Extra Column in DB2" ∨
      d.diffType = "Type Mismatch" ∨ d.diffType = "Nullable Mismatch") := by
  unfold commonTableDiffs at hd
  cases h1 : lookupA lk1 t with
  | none =>
      simp only [h1] at hd
      exact absurd hd (List.not_mem_nil d)
  | some cols1 =>
      cases h2 : lookupA lk2 t with
      | none =>
          simp only [h1, h2] at hd
          exact absurd hd (List.not_mem_nil d)
      | some cols2 =>
          simp only [h1, h2] at hd
          exact mem_tableColDiffs hd

/-- `compare_databases` on a non-empty master is the concatenation of the
missing-table, extra-table and common-table sections. -/
theorem compare_databases_eq (ord : List String → List String) (df1 df2 : List Row)
    (h : df1 ≠ []) :
    compare_databases ord df1 df2 =
      ((ord (((create_lookup df1).map Prod.fst).filter
          (fun t => decide (t ∉ (create_lookup df2).map Prod.fst)))).map missingTableRec) ++
      ((ord (((create_lookup df2).map Prod.fst).filter
          (fun t => decide (t ∉ (create_lookup df1).map Prod.fst)))).map extraTableRec) ++
      ((ord (((create_lookup df1).map Prod.fst).filter
          (fun t => decide (t ∈ (create_lookup df2).map Prod.fst)))).flatMap
        (commonTableDiffs ord (create_lookup df1) (create_lookup df2))) := by
  simp only [compare_databases, if_neg h]

theorem flatMap_eq_nil {α β : Type} (l : List α) (f : α → List β)
    (h : ∀ a ∈ l, f a = []) : l.flatMap f = [] := by
  induction l with
  | nil => simp
  | cons a l ih =>
      simp [List.flatMap_cons, h a (List.mem_cons_self a l),
        ih (fun b hb => h b (List.mem_cons_of_mem a hb))]

theorem tableColDiffs_self (ord : List String → List String)
    (hord : ∀ l, (ord l).Perm l) (t : String) (cols : List (String × Row)) :
    tableColDiffs ord t cols cols = [] := by
  have hord0 : ord [] = [] := (hord []).eq_nil
  have hfil : ((cols.map Prod.fst).filter (fun c => decide (c ∉ cols.map Prod.fst))) = [] :=
    List.filter_eq_nil_iff.mpr (by intro a ha; simp [ha])
  simp only [tableColDiffs, hfil, hord0, List.map_nil, List.nil_append]
  apply flatMap_eq_nil
  intro c _
  unfold commonColDiffs
  cases hl : lookupA cols c with
  | none => simp
  | some r => simp

theorem commonTableDiffs_self (ord : List String → List String)
    (hord : ∀ l, (ord l).Perm l) (lk : List (String × List (String × Row))) (t : String) :
    commonTableDiffs ord lk lk t = [] := by
  unfold commonTableDiffs
  cases hl : lookupA lk t with
  | none => simp
  | some cols => simp [tableColDiffs_self ord hord]

/-- C4: comparing any snapshot with itself yields the empty difference list
(`compare(A, A) = []`), whatever iteration order the Python sets take. -/
theorem c4_compare_self (ord : List String → List String)
    (hord : ∀ l, (ord l).Perm l) (df : List Row) :
    compare_databases ord df df = [] := by
  by_cases h : df = []
  · simp [compare_databases, h]
  · rw [compare_databases_eq ord df df h]
    have hord0 : ord [] = [] := (hord []).eq_nil
    have hfil : (((create_lookup df).map Prod.fst).filter
        (fun t => decide (t ∉ (create_lookup df).map Prod.fst))) = [] :=
      List.filter_eq_nil_iff.mpr (by intro a ha; simp [ha])
    rw [hfil, hord0]
    simp only [List.map_nil, List.nil_append, List.append_nil]
    apply flatMap_eq_nil
    intro t _
    exact commonTableDiffs_self ord hord _ t

/-- Witness for C4 at a concrete snapshot with the identity iteration order. -/
theorem c4_compare_self_witness :
    compare_databases id [⟨"DB_1", "t", "c", "int", true, ""⟩]
      [⟨"DB_1", "t", "c", "int", true, ""⟩] = [] :=
  c4_compare_self id (fun l => List.Perm.refl l) _

/-- C3: an empty master short-circuits `compare` to the empty list for any
second snapshot, and comparing a non-empty master against an empty target
yields exactly one `Missing Table in DB2` record per table of the master
(a permutation of one record per table key) and nothing else. -/
theorem c3_empty_master_and_empty_target (ord : List String → List String)
    (hord : ∀ l, (ord l).Perm l) (df1 df2 : List Row) :
    compare_databases ord [] df2 = [] ∧
    (df1 ≠ [] →
      (compare_databases ord df1 []).Perm
        (((create_lookup df1).map Prod.fst).map missingTableRec)) := by
  constructor
  · simp [compare_databases]
  · intro h
    rw [compare_databases_eq ord df1 [] h]
    have hlk2 : create_lookup ([] : List Row) = [] := rfl
    rw [hlk2]
    have hord0 : ord [] = [] := (hord []).eq_nil
    have hfil1 : (((create_lookup df1).map Prod.fst).filter
        (fun t => decide (t ∉ ([] : List (String × List (String × Row))).map Prod.fst))) =
        (create_lookup df1).map Prod.fst :=
      List.filter_eq_self.mpr (by intro a _; simp)
    have hfil2 : ((([] : List (String × List (String × Row))).map Prod.fst).filter
        (fun t => decide (t ∉ (create_lookup df1).map Prod.fst))) = [] := by
      simp
    have hfil3 : (((create_lookup df1).map Prod.fst).filter
        (fun t => decide (t ∈ ([] : List (String × List (String × Row))).map Prod.fst))) = [] :=
      List.filter_eq_nil_iff.mpr (by intro a _; simp)
    rw [hfil1, hfil2, hfil3, hord0]
    simp only [List.map_nil, List.nil_append, List.flatMap_nil, List.append_nil]
    exact (hord _).map missingTableRec

/-- Witness for C3 at concrete snapshots with the identity iteration order. -/
theorem c3_empty_master_and_empty_target_witness :
    compare_databases id [] [⟨"DB_2", "t", "c", "int", true, ""⟩] = [] ∧
    (compare_databases id [⟨"DB_1", "t", "c", "int", true, ""⟩] []).Perm
      (((create_lookup [⟨"DB_1", "t", "c", "int", true, ""⟩]).map Prod.fst).map
        missingTableRec) := by
  have h := c3_empty_master_and_empty_target id (fun l => List.Perm.refl l)
    [⟨"DB_1", "t", "c", "int", true, ""⟩] [⟨"DB_2", "t", "c", "int", true, ""⟩]
  exact ⟨h.1, h.2 (by simp)⟩

theorem count_section_map (ord : List String → List String)
    (hord : ∀ l, (ord l).Perm l) {α : Type} [DecidableEq α] (f : String → α)
    (hf : ∀ a b, f a = f b → a = b) (l : List String) (hl : l.Nodup)
    (q : String → Bool) (T : String) :
    ((ord (l.filter q)).map f).count (f T) = if T ∈ l ∧ q T = true then 1 else 0 := by
  rw [count_map_rec f hf, (hord _).count_eq T, count_filter_nodup l hl q T]

theorem count_map_of_ne {α : Type} [DecidableEq α] (f : String → α) (x : α)
    (hx : ∀ a, f a ≠ x) (l : List String) : (l.map f).count x = 0 := by
  apply List.count_eq_zero.mpr
  intro hmem
  rcases List.mem_map.mp hmem with ⟨a, _, ha⟩
  exact hx a ha

theorem countP_map_eq_count (ord : List String → List String)
    (hord : ∀ l, (ord l).Perm l) {α : Type} (f : String → α) (p : α → Bool) (T : String)
    (hpT : ∀ a, p (f a) = (a == T)) (l : List String) (hl : l.Nodup) (q : String → Bool) :
    ((ord (l.filter q)).map f).countP p = if T ∈ l ∧ q T = true then 1 else 0 := by
  rw [List.countP_map]
  have hc : List.countP (p ∘ f) (ord (l.filter q)) =
      List.countP (fun a => a == T) (ord (l.filter q)) :=
    List.countP_congr (fun a _ => by simp [Function.comp, hpT a])
  rw [hc, ← List.count_eq_countP, (hord _).count_eq T, count_filter_nodup l hl q T]

theorem countP_commonSection_zero (ord : List String → List String)
    (lk1 lk2 : List (String × List (String × Row))) (l : List String) (p : Diff → Bool)
    (hp : ∀ d : Diff, d.diffType = "Missing Column in DB2" ∨
        d.diffType = "Extra Column in DB2" ∨ d.diffType = "Type Mismatch" ∨
        d.diffType = "Nullable Mismatch" → p d = false) :
    (l.flatMap (commonTableDiffs ord lk1 lk2)).countP p = 0 := by
  apply List.countP_eq_zero.mpr
  intro d hd
  rcases List.mem_flatMap.mp hd with ⟨t, _, hdt⟩
  simp [hp d (mem_commonTableDiffs hdt).2]

theorem count_commonSection_zero (ord : List String → List String)
    (lk1 lk2 : List (String × List (String × Row))) (l : List String) (x : Diff)
    (hx : x.diffType = "Missing Table in DB2" ∨ x.diffType = "Extra Table in DB2") :
    (l.flatMap (commonTableDiffs ord lk1 lk2)).count x = 0 := by
  apply List.count_eq_zero.mpr
  intro hmem
  rcases List.mem_flatMap.mp hmem with ⟨t, _, hdt⟩
  have h := (mem_commonTableDiffs hdt).2
  rcases hx with hx | hx <;> rcases h with h | h | h | h <;> rw [hx] at h <;> simp at h

/-- C2: for non-empty snapshots, each table of DB1 absent from DB2 yields
exactly one `Missing Table in DB2` record, each table of DB2 absent from DB1
exactly one `Extra Table in DB2` record, and a table in both or in neither
yields no table-level record at all; table-level records are never
duplicated. -/
theorem c2_table_level_records (ord : List String → List String)
    (hord : ∀ l, (ord l).Perm l) (df1 df2 : List Row)
    (h1 : df1 ≠ []) (h2 : df2 ≠ []) (T : String) :
    ((compare_databases ord df1 df2).count (missingTableRec T) =
      if T ∈ (create_lookup df1).map Prod.fst ∧ T ∉ (create_lookup df2).map Prod.fst
        then 1 else 0) ∧
    ((compare_databases ord df1 df2).count (extraTableRec T) =
      if T ∈ (create_lookup df2).map Prod.fst ∧ T ∉ (create_lookup df1).map Prod.fst
        then 1 else 0) ∧
    ((compare_databases ord df1 df2).countP
        (fun d => decide (d.table = T ∧ (d.diffType = "Missing Table in DB2" ∨
          d.diffType = "Extra Table in DB2"))) =
      if (T ∈ (create_lookup df1).map Prod.fst ∧ T ∉ (create_lookup df2).map Prod.fst) ∨
          (T ∈ (create_lookup df2).map Prod.fst ∧ T ∉ (create_lookup df1).map Prod.fst)
        then 1 else 0) := by
  have hmtinj : ∀ a b, missingTableRec a = missingTableRec b → a = b := by
    intro a b hab
    simpa [missingTableRec] using congrArg Diff.table hab
  have hetinj : ∀ a b, extraTableRec a = extraTableRec b → a = b := by
    intro a b hab
    simpa [extraTableRec] using congrArg Diff.table hab
  have hn1 : ((create_lookup df1).map Prod.fst).Nodup := (create_lookup_wf df1).1
  have hn2 : ((create_lookup df2).map Prod.fst).Nodup := (create_lookup_wf df2).1
  rw [compare_databases_eq ord df1 df2 h1]
  refine ⟨?_, ?_, ?_⟩
  · rw [List.count_append, List.count_append]
    rw [count_section_map ord hord missingTableRec hmtinj _ hn1 _ T]
    rw [count_map_of_ne extraTableRec (missingTableRec T)
      (by intro a hc; simpa [extraTableRec, missingTableRec] using congrArg Diff.diffType hc) _]
    rw [count_commonSection_zero ord _ _ _ _ (Or.inl rfl)]
    by_cases hA : T ∈ (create_lookup df1).map Prod.fst <;>
      by_cases hB : T ∈ (create_lookup df2).map Prod.fst <;> simp [hA, hB]
  · rw [List.count_append, List.count_append]
    rw [count_section_map ord hord extraTableRec hetinj _ hn2 _ T]
    rw [count_map_of_ne missingTableRec (extraTableRec T)
      (by intro a hc; simpa [extraTableRec, missingTableRec] using congrArg Diff.diffType hc) _]
    rw [count_commonSection_zero ord _ _ _ _ (Or.inr rfl)]
    by_cases hA : T ∈ (create_lookup df1).map Prod.fst <;>
      by_cases hB : T ∈ (create_lookup df2).map Prod.fst <;> simp [hA, hB]
  · rw [List.countP_append, List.countP_append]
    rw [countP_map_eq_count ord hord missingTableRec _ T
      (by intro a; by_cases hh : a = T <;> simp [missingTableRec, hh]) _ hn1 _]
    rw [countP_map_eq_count ord hord extraTableRec _ T
      (by intro a; by_cases hh : a = T <;> simp [extraTableRec, hh]) _ hn2 _]
    rw [countP_commonSection_zero ord _ _ _ _
      (by intro d hd; rcases hd with h | h | h | h <;> simp [h])]
    by_cases hA : T ∈ (create_lookup df1).map Prod.fst <;>
      by_cases hB : T ∈ (create_lookup df2).map Prod.fst <;> simp [hA, hB]

theorem countP_eq_single {α : Type} [DecidableEq α] (q : α → Bool) (l : List α) (C : α)
    (h0 : ∀ a ∈ l, a ≠ C → q a = false) :
    l.countP q = l.count C * (if q C then 1 else 0) := by
  induction l with
  | nil => simp
  | cons a l ih =>
      rw [List.countP_cons, ih (fun b hb => h0 b (List.mem_cons_of_mem a hb))]
      by_cases h : a = C
      · subst h
        simp only [List.count_cons, beq_self_eq_true, if_true]
        ring
      · have hca : ¬ C = a := fun hc => h hc.symm
        rw [h0 a (List.mem_cons_self a l) h]
        simp [List.count_cons, hca]

theorem countP_tableSection_zero (ord : List String → List String)
    (hord : ∀ l, (ord l).Perm l) (f : String → Diff) (hf : ∀ a, (f a).table = a)
    (l : List String) (q : String → Bool) (p : Diff → Bool) (T : String)
    (hT : ∀ t ∈ l.filter q, t ≠ T) (hp : ∀ d, d.table ≠ T → p d = false) :
    ((ord (l.filter q)).map f).countP p = 0 := by
  apply List.countP_eq_zero.mpr
  intro d hd
  rcases List.mem_map.mp hd with ⟨a, ha, rfl⟩
  have ha' : a ∈ l.filter q := ((hord _).mem_iff).mp ha
  have hne : (f a).table ≠ T := by
    rw [hf a]
    exact hT a ha'
  simp [hp _ hne]

/-- Counting a predicate that holds only on records of table `T` over the
whole comparison reduces to counting it over `T`'s column section, when `T`
is a table of both lookups. -/
theorem countP_compare_common (ord : List String → List String)
    (hord : ∀ l, (ord l).Perm l) (df1 df2 : List Row) (T : String)
    (cols1 cols2 : List (String × Row))
    (h1 : lookupA (create_lookup df1) T = some cols1)
    (h2 : lookupA (create_lookup df2) T = some cols2)
    (p : Diff → Bool) (hp : ∀ d, d.table ≠ T → p d = false) :
    (compare_databases ord df1 df2).countP p = (tableColDiffs ord T cols1 cols2).countP p := by
  have h1ne : df1 ≠ [] := by
    intro hh
    rw [hh] at h1
    simp [create_lookup, lookupA] at h1
  have hTin1 : T ∈ (create_lookup df1).map Prod.fst :=
    (lookupA_isSome_iff _ T).mp (by simp [h1])
  have hTin2 : T ∈ (create_lookup df2).map Prod.fst :=
    (lookupA_isSome_iff _ T).mp (by simp [h2])
  have hn1 : ((create_lookup df1).map Prod.fst).Nodup := (create_lookup_wf df1).1
  rw [compare_databases_eq ord df1 df2 h1ne, List.countP_append, List.countP_append]
  rw [countP_tableSection_zero ord hord missingTableRec (fun a => rfl) _ _ p T
    (by
      intro t ht hteq
      subst hteq
      have hx := (List.mem_filter.mp ht).2
      simp only [decide_eq_true_eq] at hx
      exact hx hTin2) hp]
  rw [countP_tableSection_zero ord hord extraTableRec (fun a => rfl) _ _ p T
    (by
      intro t ht hteq
      subst hteq
      have hx := (List.mem_filter.mp ht).2
      simp only [decide_eq_true_eq] at hx
      exact hx hTin1) hp]
  rw [countP_flatMap_mul p (commonTableDiffs ord (create_lookup df1) (create_lookup df2)) _ T
    (by
      intro t _ htne
      apply List.countP_eq_zero.mpr
      intro d hd
      have hdt := (mem_commonTableDiffs hd).1
      simp [hp d (by rw [hdt]; exact htne)])]
  rw [(hord _).count_eq T, count_filter_nodup _ hn1 _ T]
  have hcond : T ∈ (create_lookup df1).map Prod.fst ∧
      (decide (T ∈ (create_lookup df2).map Prod.fst)) = true := ⟨hTin1, by simp [hTin2]⟩
  rw [if_pos hcond]
  simp only [commonTableDiffs, h1, h2, Nat.zero_add, Nat.one_mul]

theorem countP_tableColDiffs_missing (ord : List String → List String)
    (hord : ∀ l, (ord l).Perm l) (T : String) (cols1 cols2 : List (String × Row)) (C : String)
    (hC1 : C ∈ cols1.map Prod.fst) (hC2 : C ∉ cols2.map Prod.fst)
    (hn1 : (cols1.map Prod.fst).Nodup)
    (p : Diff → Bool) (hp : ∀ d, d.column ≠ C → p d = false) :
    (tableColDiffs ord T cols1 cols2).countP p = if p (missingColRec T C) then 1 else 0 := by
  simp only [tableColDiffs, List.countP_append]
  have hextra : ((ord ((cols2.map Prod.fst).filter
      (fun c => decide (c ∉ cols1.map Prod.fst)))).map (extraColRec T)).countP p = 0 := by
    apply List.countP_eq_zero.mpr
    intro d hd
    rcases List.mem_map.mp hd with ⟨c, hc, rfl⟩
    have hc' := (List.mem_filter.mp (((hord _).mem_iff).mp hc)).2
    simp only [decide_eq_true_eq] at hc'
    have hcc : c ≠ C := fun hh => hc' (hh ▸ hC1)
    simp [hp (extraColRec T c) hcc]
  have hcommon : ((ord ((cols1.map Prod.fst).filter
      (fun c => decide (c ∈ cols2.map Prod.fst)))).flatMap
        (fun c => commonColDiffs T c cols1 cols2)).countP p = 0 := by
    apply List.countP_eq_zero.mpr
    intro d hd
    rcases List.mem_flatMap.mp hd with ⟨c, hc, hdc⟩
    have hcm := mem_commonColDiffs hdc
    have hc' := (List.mem_filter.mp (((hord _).mem_iff).mp hc)).2
    simp only [decide_eq_true_eq] at hc'
    have hcne : c ≠ C := fun hh => hC2 (hh ▸ hc')
    simp [hp d (by rw [hcm.2.1]; exact hcne)]
  rw [hextra, hcommon, List.countP_map]
  rw [countP_eq_single (p ∘ missingColRec T) _ C (fun a _ hane => hp (missingColRec T a) hane)]
  rw [(hord _).count_eq C, count_filter_nodup _ hn1 _ C, if_pos ⟨hC1, by simp [hC2]⟩]
  simp [Function.comp]

theorem countP_tableColDiffs_extra (ord : List String → List String)
    (hord : ∀ l, (ord l).Perm l) (T : String) (cols1 cols2 : List (String × Row)) (C : String)
    (hC2 : C ∈ cols2.map Prod.fst) (hC1 : C ∉ cols1.map Prod.fst)
    (hn2 : (cols2.map Prod.fst).Nodup)
    (p : Diff → Bool) (hp : ∀ d, d.column ≠ C → p d = false) :
    (tableColDiffs ord T cols1 cols2).countP p = if p (extraColRec T C) then 1 else 0 := by
  simp only [tableColDiffs, List.countP_append]
  have hmissing : ((ord ((cols1.map Prod.fst).filter
      (fun c => decide (c ∉ cols2.map Prod.fst)))).map (missingColRec T)).countP p = 0 := by
    apply List.countP_eq_zero.mpr
    intro d hd
    rcases List.mem_map.mp hd with ⟨c, hc, rfl⟩
    have hc' := (List.mem_filter.mp (((hord _).mem_iff).mp hc)).1
    have hcc : c ≠ C := fun hh => hC1 (hh ▸ hc')
    simp [hp (missingColRec T c) hcc]
  have hcommon : ((ord ((cols1.map Prod.fst).filter
      (fun c => decide (c ∈ cols2.map Prod.fst)))).flatMap
        (fun c => commonColDiffs T c cols1 cols2)).countP p = 0 := by
    apply List.countP_eq_zero.mpr
    intro d hd
    rcases List.mem_flatMap.mp hd with ⟨c, hc, hdc⟩
    have hcm := mem_commonColDiffs hdc
    have hc' := (List.mem_filter.mp (((hord _).mem_iff).mp hc)).1
    have hcne : c ≠ C := fun hh => hC1 (hh ▸ hc')
    simp [hp d (by rw [hcm.2.1]; exact hcne)]
  rw [hmissing, hcommon, List.countP_map]
  rw [countP_eq_single (p ∘ extraColRec T) _ C (fun a _ hane => hp (extraColRec T a) hane)]
  rw [(hord _).count_eq C, count_filter_nodup _ hn2 _ C, if_pos ⟨hC2, by simp [hC1]⟩]
  simp [Function.comp]

theorem countP_tableColDiffs_common (ord : List String → List String)
    (hord : ∀ l, (ord l).Perm l) (T : String) (cols1 cols2 : List (String × Row)) (C : String)
    (r1 r2 : Row) (hc1 : lookupA cols1 C = some r1) (hc2 : lookupA cols2 C = some r2)
    (hn1 : (cols1.map Prod.fst).Nodup)
    (p : Diff → Bool) (hp : ∀ d, d.column ≠ C → p d = false) :
    (tableColDiffs ord T cols1 cols2).countP p =
      (commonColDiffs T C cols1 cols2).countP p := by
  have hC1 : C ∈ cols1.map Prod.fst := (lookupA_isSome_iff _ C).mp (by simp [hc1])
  have hC2 : C ∈ cols2.map Prod.fst := (lookupA_isSome_iff _ C).mp (by simp [hc2])
  simp only [tableColDiffs, List.countP_append]
  have hmissing : ((ord ((cols1.map Prod.fst).filter
      (fun c => decide (c ∉ cols2.map Prod.fst)))).map (missingColRec T)).countP p = 0 := by
    apply List.countP_eq_zero.mpr
    intro d hd
    rcases List.mem_map.mp hd with ⟨c, hc, rfl⟩
    have hc' := (List.mem_filter.mp (((hord _).mem_iff).mp hc)).2
    simp only [decide_eq_true_eq] at hc'
    have hcc : c ≠ C := fun hh => hc' (hh ▸ hC2)
    simp [hp (missingColRec T c) hcc]
  have hextra : ((ord ((cols2.map Prod.fst).filter
      (fun c => decide (c ∉ cols1.map Prod.fst)))).map (extraColRec T)).countP p = 0 := by
    apply List.countP_eq_zero.mpr
    intro d hd
    rcases List.mem_map.mp hd with ⟨c, hc, rfl⟩
    have hc' := (List.mem_filter.mp (((hord _).mem_iff).mp hc)).2
    simp only [decide_eq_true_eq] at hc'
    have hcc : c ≠ C := fun hh => hc' (hh ▸ hC1)
    simp [hp (extraColRec T c) hcc]
  rw [hmissing, hextra]
  rw [countP_flatMap_mul p (fun c => commonColDiffs T c cols1 cols2) _ C
    (by
      intro c _ hcne
      apply List.countP_eq_zero.mpr
      intro d hd
      have hcm := mem_commonColDiffs hd
      simp [hp d (by rw [hcm.2.1]; exact hcne)])]
  rw [(hord _).count_eq C, count_filter_nodup _ hn1 _ C, if_pos ⟨hC1, by simp [hC2]⟩]
  simp

/-- C1: on a table `T` present in both snapshots, a column of DB1 absent from
DB2 yields exactly one `Missing Column in DB2` record and no other record for
that column; a column of DB2 absent from DB1 yields exactly one
`Extra Column in DB2` record and no other; a common column yields exactly one
`Type Mismatch` record (carrying the two literal type strings) when the types
differ, exactly one `Nullable Mismatch` record when the nullabilities differ,
and no record at all when both agree. -/
theorem c1_column_records (ord : List String → List String)
    (hord : ∀ l, (ord l).Perm l) (df1 df2 : List Row) (T : String)
    (cols1 cols2 : List (String × Row))
    (h1 : lookupA (create_lookup df1) T = some cols1)
    (h2 : lookupA (create_lookup df2) T = some cols2) (C : String) :
    (C ∈ cols1.map Prod.fst ∧ C ∉ cols2.map Prod.fst →
      (compare_databases ord df1 df2).count (missingColRec T C) = 1 ∧
      (compare_databases ord df1 df2).countP
        (fun d => decide (d.table = T ∧ d.column = C)) = 1) ∧
    (C ∈ cols2.map Prod.fst ∧ C ∉ cols1.map Prod.fst →
      (compare_databases ord df1 df2).count (extraColRec T C) = 1 ∧
      (compare_databases ord df1 df2).countP
        (fun d => decide (d.table = T ∧ d.column = C)) = 1) ∧
    (∀ r1 r2 : Row, lookupA cols1 C = some r1 → lookupA cols2 C = some r2 →
      (compare_databases ord df1 df2).count (typeMismatchRec T C r1.type r2.type) =
        (if r1.type = r2.type then 0 else 1) ∧
      (compare_databases ord df1 df2).count
          (nullableMismatchRec T C r1.nullable r2.nullable) =
        (if r1.nullable = r2.nullable then 0 else 1) ∧
      (compare_databases ord df1 df2).countP
        (fun d => decide (d.table = T ∧ d.column = C)) =
        (if r1.type = r2.type then 0 else 1) + (if r1.nullable = r2.nullable then 0 else 1)) := by
  have hn1 : (cols1.map Prod.fst).Nodup := (create_lookup_wf df1).2 T cols1 h1
  have hn2 : (cols2.map Prod.fst).Nodup := (create_lookup_wf df2).2 T cols2 h2
  refine ⟨?_, ?_, ?_⟩
  · rintro ⟨hC1, hC2⟩
    constructor
    · rw [List.count_eq_countP]
      rw [countP_compare_common ord hord df1 df2 T cols1 cols2 h1 h2 _
        (by
          intro d hd
          apply beq_eq_false_iff_ne.mpr
          intro he
          exact hd (by rw [he]; rfl))]
      rw [countP_tableColDiffs_missing ord hord T cols1 cols2 C hC1 hC2 hn1 _
        (by
          intro d hd
          apply beq_eq_false_iff_ne.mpr
          intro he
          exact hd (by rw [he]; rfl))]
      simp
    · rw [countP_compare_common ord hord df1 df2 T cols1 cols2 h1 h2 _
        (by intro d hd; simp [hd])]
      rw [countP_tableColDiffs_missing ord hord T cols1 cols2 C hC1 hC2 hn1 _
        (by intro d hd; simp [hd])]
      simp [missingColRec]
  · rintro ⟨hC2, hC1⟩
    constructor
    · rw [List.count_eq_countP]
      rw [countP_compare_common ord hord df1 df2 T cols1 cols2 h1 h2 _
        (by
          intro d hd
          apply beq_eq_false_iff_ne.mpr
          intro he
          exact hd (by rw [he]; rfl))]
      rw [countP_tableColDiffs_extra ord hord T cols1 cols2 C hC2 hC1 hn2 _
        (by
          intro d hd
          apply beq_eq_false_iff_ne.mpr
          intro he
          exact hd (by rw [he]; rfl))]
      simp
    · rw [countP_compare_common ord hord df1 df2 T cols1 cols2 h1 h2 _
        (by intro d hd; simp [hd])]
      rw [countP_tableColDiffs_extra ord hord T cols1 cols2 C hC2 hC1 hn2 _
        (by intro d hd; simp [hd])]
      simp [extraColRec]
  · intro r1 r2 hc1 hc2
    refine ⟨?_, ?_, ?_⟩
    · rw [List.count_eq_countP]
      rw [countP_compare_common ord hord df1 df2 T cols1 cols2 h1 h2 _
        (by
          intro d hd
          apply beq_eq_false_iff_ne.mpr
          intro he
          exact hd (by rw [he]; rfl))]
      rw [countP_tableColDiffs_common ord hord T cols1 cols2 C r1 r2 hc1 hc2 hn1 _
        (by
          intro d hd
          apply beq_eq_false_iff_ne.mpr
          intro he
          exact hd (by rw [he]; rfl))]
      simp only [commonColDiffs, hc1, hc2]
      by_cases hty : r1.type = r2.type <;> by_cases hnu : r1.nullable = r2.nullable <;>
        simp [hty, hnu, typeMismatchRec, nullableMismatchRec]
    · rw [List.count_eq_countP]
      rw [countP_compare_common ord hord df1 df2 T cols1 cols2 h1 h2 _
        (by
          intro d hd
          apply beq_eq_false_iff_ne.mpr
          intro he
          exact hd (by rw [he]; rfl))]
      rw [countP_tableColDiffs_common ord hord T cols1 cols2 C r1 r2 hc1 hc2 hn1 _
        (by
          intro d hd
          apply beq_eq_false_iff_ne.mpr
          intro he
          exact hd (by rw [he]; rfl))]
      simp only [commonColDiffs, hc1, hc2]
      by_cases hty : r1.type = r2.type <;> by_cases hnu : r1.nullable = r2.nullable <;>
        simp [hty, hnu, typeMismatchRec, nullableMismatchRec]
    · rw [countP_compare_common ord hord df1 df2 T cols1 cols2 h1 h2 _
        (by intro d hd; simp [hd])]
      rw [countP_tableColDiffs_common ord hord T cols1 cols2 C r1 r2 hc1 hc2 hn1 _
        (by intro d hd; simp [hd])]
      simp only [commonColDiffs, hc1, hc2]
      by_cases hty : r1.type = r2.type <;> by_cases hnu : r1.nullable = r2.nullable <;>
        simp [hty, hnu, typeMismatchRec, nullableMismatchRec]

/-- Witness for C2: table `a` exists only in DB1 and is reported exactly once. -/
theorem c2_table_level_records_witness :
    (compare_databases id [⟨"DB_1", "a", "c", "int", true, ""⟩]
        [⟨"DB_2", "b", "c", "int", true, ""⟩]).count (missingTableRec "a") = 1 := by
  have h := (c2_table_level_records id (fun l => List.Perm.refl l)
      [⟨"DB_1", "a", "c", "int", true, ""⟩] [⟨"DB_2", "b", "c", "int", true, ""⟩]
      (by simp) (by simp) "a").1
  rw [h]
  decide

/-- Witness for C1: a common table with one common column of differing type
yields exactly one type-mismatch record. -/
theorem c1_column_records_witness :
    (compare_databases id [⟨"DB_1", "t", "c", "int", false, ""⟩]
        [⟨"DB_2", "t", "c", "text", false, ""⟩]).count
      (typeMismatchRec "t" "c" "int" "text") = 1 := by
  have h := ((c1_column_records id (fun l => List.Perm.refl l)
      [⟨"DB_1", "t", "c", "int", false, ""⟩] [⟨"DB_2", "t", "c", "text", false, ""⟩]
      "t" [("c", ⟨"DB_1", "t", "c", "int", false, ""⟩)]
      [("c", ⟨"DB_2", "t", "c", "text", false, ""⟩)] rfl rfl "c").2.2
      ⟨"DB_1", "t", "c", "int", false, ""⟩ ⟨"DB_2", "t", "c", "text", false, ""⟩ rfl rfl).1
  simpa using h

/-- C7: when introspection fails, `get_db_structure` returns an empty snapshot
together with the diagnostic line (it does not raise), and the comparison run
can proceed on that empty snapshot. -/
theorem c7_connection_failure_empty_snapshot (e label : String)
    (df2 : List Row) (ord : List String → List String) :
    get_db_structure (.error e) label =
      ([], some ("Error connecting to " ++ label ++ ": " ++ e)) ∧
    compare_databases ord (get_db_structure (.error e) label).1 df2 = [] :=
  ⟨rfl, rfl⟩

/-- C8: the record order of `compare_databases` depends on the iteration order
of the Python name sets — two legitimate set orders (two hash seeds) produce
differently ordered outputs for the same pair of snapshots. -/
theorem c8_output_order_not_run_deterministic :
    (∀ l : List String, (List.reverse l).Perm l) ∧
    compare_databases id
        [⟨"DB_1", "a", "c", "int", true, ""⟩, ⟨"DB_1", "b", "c", "int", true, ""⟩] [] ≠
      compare_databases List.reverse
        [⟨"DB_1", "a", "c", "int", true, ""⟩, ⟨"DB_1", "b", "c", "int", true, ""⟩] [] := by
  refine ⟨fun l => List.reverse_perm l, ?_⟩
  decide

/-- C9: a column whose introspection entry carries `default = None` is
rendered with the string `"None"`, not the empty string (only an absent
`default` key yields the empty string). -/
theorem c9_none_default_renders_None :
    ((get_db_structure (.ok [("t", [⟨"c", "int", true, some none⟩])]) "DB_1").1.map
        (fun r => r.default)) = ["None"] ∧
    ((get_db_structure (.ok [("t", [⟨"c", "int", true, none⟩])]) "DB_1").1.map
        (fun r => r.default)) = [""] ∧
    "None" ≠ "" := by
  refine ⟨rfl, rfl, by decide⟩

/-! ### The generator never acts on extra tables / extra columns -/

/-- The records the generator may act on: everything except
`Extra Table in DB2` and `Extra Column in DB2` rows. -/
def nonExtra (d : Diff) : Bool :=
  decide (d.diffType ≠ "Extra Table in DB2" ∧ d.diffType ≠ "Extra Column in DB2")

theorem nonExtra_false_iff (d : Diff) :
    nonExtra d = false ↔
      (d.diffType = "Extra Table in DB2" ∨ d.diffType = "Extra Column in DB2") := by
  simp only [nonExtra, decide_eq_false_iff_not, not_and_or, not_not]

theorem rowStatements_extra (cd : String → String → Except String (Option ColInfo))
    (t : String) (d : Diff) (hd : nonExtra d = false) :
    rowStatements cd t d = [] := by
  rcases (nonExtra_false_iff d).mp hd with h | h <;> simp [rowStatements, h]

theorem processTable_all_extra (td : String → Except String String)
    (cd : String → String → Except String (Option ColInfo)) (t : String) (g : List Diff)
    (hg : ∀ d ∈ g, nonExtra d = false) :
    processTable td cd t g = [] := by
  have hmt : g.filter (fun d => decide (d.diffType = "Missing Table in DB2")) = [] := by
    apply List.filter_eq_nil_iff.mpr
    intro d hd
    rcases (nonExtra_false_iff d).mp (hg d hd) with h | h <;> simp [h]
  unfold processTable
  rw [hmt, if_neg (by simp : ¬(([] : List Diff) ≠ []))]
  rw [← List.flatMap_def]
  exact flatMap_eq_nil _ _ (fun d hd => rowStatements_extra cd t d (hg d hd))

theorem flatMap_filter_eq {α β : Type} (f : α → List β) (p : α → Bool) (l : List α)
    (h : ∀ a ∈ l, p a = false → f a = []) :
    (l.filter p).flatMap f = l.flatMap f := by
  induction l with
  | nil => simp
  | cons a l ih =>
      rw [List.filter_cons]
      by_cases hp : p a = true
      · rw [if_pos hp, List.flatMap_cons, List.flatMap_cons,
          ih (fun b hb hbf => h b (List.mem_cons_of_mem a hb) hbf)]
      · have hpf : p a = false := by simpa using hp
        rw [if_neg hp, List.flatMap_cons, h a (List.mem_cons_self a l) hpf, List.nil_append,
          ih (fun b hb hbf => h b (List.mem_cons_of_mem a hb) hbf)]

theorem processTable_filter_nonExtra (td : String → Except String String)
    (cd : String → String → Except String (Option ColInfo)) (t : String) (g : List Diff) :
    processTable td cd t (g.filter nonExtra) = processTable td cd t g := by
  have hmt : (g.filter nonExtra).filter
      (fun d => decide (d.diffType = "Missing Table in DB2")) =
      g.filter (fun d => decide (d.diffType = "Missing Table in DB2")) := by
    rw [List.filter_filter]
    apply List.filter_congr
    intro d _
    by_cases h : d.diffType = "Missing Table in DB2"
    · simp [h, nonExtra]
    · simp [h]
  unfold processTable
  rw [hmt]
  by_cases h0 : g.filter (fun d => decide (d.diffType = "Missing Table in DB2")) = []
  · rw [h0, if_neg (by simp : ¬(([] : List Diff) ≠ [])),
      if_neg (by simp : ¬(([] : List Diff) ≠ []))]
    rw [← List.flatMap_def, ← List.flatMap_def]
    exact flatMap_filter_eq (rowStatements cd t) nonExtra g
      (fun d _ hd => rowStatements_extra cd t d hd)
  · rw [if_pos h0, if_pos h0]

theorem mem_sortedTables {a : String} {diffs : List Diff} :
    a ∈ sortedTables diffs ↔ a ∈ diffs.map (fun d => d.table) := by
  unfold sortedTables
  rw [(List.perm_insertionSort _ _).mem_iff, List.mem_dedup]

theorem nodup_sortedTables (diffs : List Diff) : (sortedTables diffs).Nodup := by
  unfold sortedTables
  exact (List.perm_insertionSort _ _).nodup_iff.mpr (List.nodup_dedup _)

theorem sorted_sortedTables (diffs : List Diff) :
    List.Sorted (· ≤ ·) (sortedTables diffs) := List.sorted_insertionSort _ _

theorem sortedTables_filter (diffs : List Diff) (p : Diff → Bool) :
    sortedTables (diffs.filter p) =
      (sortedTables diffs).filter
        (fun t => decide (t ∈ (diffs.filter p).map (fun d => d.table))) := by
  have hperm : (sortedTables (diffs.filter p)).Perm
      ((sortedTables diffs).filter
        (fun t => decide (t ∈ (diffs.filter p).map (fun d => d.table)))) := by
    apply (List.perm_ext_iff_of_nodup (nodup_sortedTables _)
      ((nodup_sortedTables diffs).filter _)).mpr
    intro a
    rw [mem_sortedTables, List.mem_filter, mem_sortedTables]
    constructor
    · intro h
      refine ⟨?_, by simpa using h⟩
      rcases List.mem_map.mp h with ⟨d, hd, rfl⟩
      exact List.mem_map.mpr ⟨d, (List.mem_filter.mp hd).1, rfl⟩
    · rintro ⟨_, h2⟩
      simpa using h2
  exact List.eq_of_perm_of_sorted hperm (sorted_sortedTables _)
    ((sorted_sortedTables diffs).filter _)

/-- C5: the generator is unidirectional — removing every `Extra Table in DB2`
and `Extra Column in DB2` record from its input leaves the generated script
unchanged, for any definition providers: those records never contribute a
statement. -/
theorem c5_generator_unidirectional (td : String → Except String String)
    (cd : String → String → Except String (Option ColInfo)) (diffs : List Diff) :
    generate_sync_sql (.ok ()) td cd diffs =
      generate_sync_sql (.ok ()) td cd (diffs.filter nonExtra) := by
  by_cases h0 : diffs = []
  · subst h0
    rfl
  by_cases hF : diffs.filter nonExtra = []
  · rw [hF]
    have hall : ∀ d ∈ diffs, nonExtra d = false := by
      intro d hd
      by_contra hc
      have hmem : d ∈ diffs.filter nonExtra :=
        List.mem_filter.mpr ⟨hd, by simpa using hc⟩
      rw [hF] at hmem
      exact absurd hmem (List.not_mem_nil d)
    have hrhs : generate_sync_sql (Except.ok ()) td cd ([] : List Diff) = "" := rfl
    rw [hrhs]
    simp only [generate_sync_sql, if_neg h0]
    have hz : ((sortedTables diffs).map (fun t =>
        processTable td cd t (diffs.filter (fun d => decide (d.table = t))))).flatten = [] := by
      rw [← List.flatMap_def]
      apply flatMap_eq_nil
      intro t _
      exact processTable_all_extra td cd t _ (fun d hd => hall d (List.mem_filter.mp hd).1)
    rw [hz]
    rfl
  · simp only [generate_sync_sql, if_neg h0, if_neg hF]
    congr 1
    have hgroup : ∀ t : String,
        processTable td cd t ((diffs.filter nonExtra).filter (fun d => decide (d.table = t))) =
        processTable td cd t (diffs.filter (fun d => decide (d.table = t))) := by
      intro t
      have hcomm : (diffs.filter nonExtra).filter (fun d => decide (d.table = t)) =
          (diffs.filter (fun d => decide (d.table = t))).filter nonExtra := by
        rw [List.filter_filter, List.filter_filter]
        exact List.filter_congr (fun d _ => Bool.and_comm _ _)
      rw [hcomm, processTable_filter_nonExtra]
    rw [sortedTables_filter diffs nonExtra]
    have hmap : ((sortedTables diffs).filter
        (fun t => decide (t ∈ (diffs.filter nonExtra).map (fun d => d.table)))).map
          (fun t => processTable td cd t
            ((diffs.filter nonExtra).filter (fun d => decide (d.table = t)))) =
        ((sortedTables diffs).filter
        (fun t => decide (t ∈ (diffs.filter nonExtra).map (fun d => d.table)))).map
          (fun t => processTable td cd t (diffs.filter (fun d => decide (d.table = t)))) :=
      List.map_congr_left (fun t _ => hgroup t)
    rw [hmap]
    rw [← List.flatMap_def, ← List.flatMap_def]
    refine (flatMap_filter_eq _ _ _ ?_).symm
    intro t _ hQ
    have hnot : t ∉ (diffs.filter nonExtra).map (fun d => d.table) := by simpa using hQ
    apply processTable_all_extra
    intro d hd
    by_contra hc
    have hne : nonExtra d = true := by simpa using hc
    have hdm := List.mem_filter.mp hd
    have hdt : d.table = t := by simpa using hdm.2
    exact hnot (List.mem_map.mpr ⟨d, List.mem_filter.mpr ⟨hdm.1, hne⟩, hdt⟩)

theorem rowStatements_congr (cd1 cd2 : String → String → Except String (Option ColInfo))
    (t : String) (d : Diff) (h : cd1 t d.column = cd2 t d.column) :
    rowStatements cd1 t d = rowStatements cd2 t d := by
  unfold rowStatements
  rw [h]

theorem processTable_congr_cd (td : String → Except String String)
    (cd1 cd2 : String → String → Except String (Option ColInfo)) (t : String) (g : List Diff)
    (h : ∀ c, cd1 t c = cd2 t c) :
    processTable td cd1 t g = processTable td cd2 t g := by
  unfold processTable
  by_cases h0 : g.filter (fun d => decide (d.diffType = "Missing Table in DB2")) ≠ []
  · rw [if_pos h0, if_pos h0]
  · rw [if_neg h0, if_neg h0]
    congr 1
    exact List.map_congr_left (fun d _ => rowStatements_congr cd1 cd2 t d (h d.column))

/-- C6: when a `Missing Table in DB2` record for `T` is present, `T`'s group
produces exactly the create-table block, and the generated script does not
depend in any way on what the column-definition provider answers for table
`T` — so no add-column or modify-column statement for `T` is ever emitted,
whatever other records for `T` are present and whether or not the
create-table fetch succeeds. -/
theorem c6_missing_table_suppresses_columns (td : String → Except String String)
    (cd cd' : String → String → Except String (Option ColInfo)) (diffs : List Diff)
    (T : String) (h : missingTableRec T ∈ diffs) :
    processTable td cd T (diffs.filter (fun d => decide (d.table = T))) =
      createTableLines td T ∧
    generate_sync_sql (.ok ()) td cd diffs =
      generate_sync_sql (.ok ()) td (fun t c => if t = T then cd' t c else cd t c) diffs := by
  have hmem : missingTableRec T ∈ diffs.filter (fun d => decide (d.table = T)) :=
    List.mem_filter.mpr ⟨h, by simp [missingTableRec]⟩
  have hmem2 : missingTableRec T ∈ (diffs.filter (fun d => decide (d.table = T))).filter
      (fun d => decide (d.diffType = "Missing Table in DB2")) :=
    List.mem_filter.mpr ⟨hmem, by simp [missingTableRec]⟩
  have hmt : (diffs.filter (fun d => decide (d.table = T))).filter
      (fun d => decide (d.diffType = "Missing Table in DB2")) ≠ [] :=
    List.ne_nil_of_mem hmem2
  have hgroupT : processTable td cd T (diffs.filter (fun d => decide (d.table = T))) =
      createTableLines td T := by
    unfold processTable
    rw [if_pos hmt]
  refine ⟨hgroupT, ?_⟩
  have h0 : diffs ≠ [] := List.ne_nil_of_mem h
  simp only [generate_sync_sql, if_neg h0]
  congr 2
  apply List.map_congr_left
  intro t _
  by_cases ht : t = T
  · rw [ht]
    have h2 : processTable td (fun t c => if t = T then cd' t c else cd t c) T
        (diffs.filter (fun d => decide (d.table = T))) = createTableLines td T := by
      unfold processTable
      rw [if_pos hmt]
    rw [hgroupT, h2]
  · exact processTable_congr_cd td cd _ t _ (fun c => by simp [ht])

/-- A sample table-definition provider for concrete evaluations. -/
def sampleTd : String → Except String String :=
  fun t => .ok ("CREATE TABLE `" ++ t ++ "` (x int)")

/-- A sample column-definition provider for concrete evaluations. -/
def sampleCd : String → String → Except String (Option ColInfo) :=
  fun _ c => .ok (some ⟨c, "int", "NO", "", none, ""⟩)

/-- A column-definition provider whose every lookup fails. -/
def sampleCdDown : String → String → Except String (Option ColInfo) :=
  fun _ _ => .error "connection lost"

/-- Witness for C6: with a missing-table record present alongside a
missing-column record for the same table, the group is exactly the
create-table block. -/
theorem c6_missing_table_suppresses_columns_witness :
    processTable sampleTd sampleCd "t"
      (([missingTableRec "t", missingColRec "t" "a"]).filter
        (fun d => decide (d.table = "t"))) = createTableLines sampleTd "t" :=
  (c6_missing_table_suppresses_columns sampleTd sampleCd sampleCdDown
    [missingTableRec "t", missingColRec "t" "a"] "t" (by decide)).1

/-! ### Script format (C10) -/

/-- Whether a character list contains two consecutive newline characters,
i.e. whether the rendered script contains a blank line. -/
def hasDoubleNewline : List Char → Bool
  | [] => false
  | [_] => false
  | a :: b :: rest => (a = Char.ofNat 10 && b = Char.ofNat 10) || hasDoubleNewline (b :: rest)

/-- C10 counterexample: a script with two consecutive add-column blocks
contains no blank line anywhere — the blocks are separated by a single
newline only, refuting blank-line separation for add-column blocks. -/
theorem c10_no_blank_line_between_column_blocks :
    generate_sync_sql (.ok ()) sampleTd sampleCd
        [missingColRec "t" "a", missingColRec "t" "b"] =
      "-- Missing Column: t.a\nALTER TABLE `t` ADD COLUMN `a` int NOT NULL  ;\n" ++
      "-- Missing Column: t.b\nALTER TABLE `t` ADD COLUMN `b` int NOT NULL  ;" ∧
    hasDoubleNewline (generate_sync_sql (.ok ()) sampleTd sampleCd
        [missingColRec "t" "a", missingColRec "t" "b"]).data = false := by
  exact ⟨rfl, by decide⟩

/-- C10 amended: every group is rendered as comment line(s) followed by at
most one statement, and the comment text names the affected table/column and
the difference kind exactly as the source writes it
(`-- Missing Column: table.column`, `-- Mismatch: table.column (kind)`,
`-- Missing Table: table`, or the corresponding error comment); each
add/modify statement ends with `;` and nothing after it, so the next block
follows after a single newline, while a create-table statement ends with `;`
plus a newline, so a blank line follows a table-creation block. -/
theorem c10_block_format (td : String → Except String String)
    (cd : String → String → Except String (Option ColInfo)) (t : String) (d : Diff) :
    (rowStatements cd t d = [] ∨
      (∃ e, rowStatements cd t d =
        ["-- " ++ ("Error getting definition for " ++
          (t ++ ("." ++ (d.column ++ (": " ++ e)))))]) ∨
      (d.diffType = "Missing Column in DB2" ∧ ∃ s, rowStatements cd t d =
        ["-- " ++ ("Missing Column: " ++ (t ++ ("." ++ d.column))), s ++ ";"]) ∨
      ((d.diffType = "Type Mismatch" ∨ d.diffType = "Nullable Mismatch") ∧
        ∃ s, rowStatements cd t d =
          ["-- " ++ ("Mismatch: " ++
            (t ++ ("." ++ (d.column ++ (" (" ++ (d.diffType ++ ")")))))), s ++ ";"])) ∧
    ((∃ e, createTableLines td t =
        ["-- " ++ ("Error generating CREATE TABLE for " ++ (t ++ (": " ++ e)))]) ∨
      (∃ s, createTableLines td t = ["-- " ++ ("Missing Table: " ++ t), s ++ ";\n"])) := by
  constructor
  · unfold rowStatements
    by_cases h1 : d.diffType = "Missing Column in DB2"
    · rw [if_pos h1]
      cases hc : cd t d.column with
      | error e =>
          refine Or.inr (Or.inl ⟨e, ?_⟩)
          simp only [String.append_assoc]
          rw [show ("-- Error getting definition for " : String) =
            "-- " ++ "Error getting definition for " from rfl, String.append_assoc]
      | ok oci =>
          cases oci with
          | none => exact Or.inl rfl
          | some ci =>
              refine Or.inr (Or.inr (Or.inl ⟨h1,
                "ALTER TABLE `" ++ t ++ "` ADD COLUMN `" ++ d.column ++ "` " ++ ci.type ++
                  " " ++ renderNull ci.null ++ " " ++ renderDefault ci.null ci.default ++
                  " " ++ ci.extra, ?_⟩))
              unfold addColumnSQL
              simp only [String.append_assoc]
              rw [show ("-- Missing Column: " : String) =
                "-- " ++ "Missing Column: " from rfl, String.append_assoc]
    · rw [if_neg h1]
      by_cases h2 : d.diffType = "Type Mismatch" ∨ d.diffType = "Nullable Mismatch"
      · rw [if_pos h2]
        cases hc : cd t d.column with
        | error e =>
            refine Or.inr (Or.inl ⟨e, ?_⟩)
            simp only [String.append_assoc]
            rw [show ("-- Error getting definition for " : String) =
              "-- " ++ "Error getting definition for " from rfl, String.append_assoc]
        | ok oci =>
            cases oci with
            | none => exact Or.inl rfl
            | some ci =>
                refine Or.inr (Or.inr (Or.inr ⟨h2,
                  "ALTER TABLE `" ++ t ++ "` MODIFY COLUMN `" ++ d.column ++ "` " ++ ci.type ++
                    " " ++ renderNull ci.null ++ " " ++ renderDefault ci.null ci.default ++
                    " " ++ ci.extra, ?_⟩))
                unfold modifyColumnSQL
                simp only [String.append_assoc]
                rw [show ("-- Mismatch: " : String) =
                  "-- " ++ "Mismatch: " from rfl, String.append_assoc]
      · rw [if_neg h2]
        exact Or.inl rfl
  · unfold createTableLines
    cases ht : td t with
    | ok s =>
        refine Or.inr ⟨s, ?_⟩
        simp only [String.append_assoc]
        rw [show ("-- Missing Table: " : String) =
          "-- " ++ "Missing Table: " from rfl, String.append_assoc]
    | error e =>
        refine Or.inl ⟨e, ?_⟩
        simp only [String.append_assoc]
        rw [show ("-- Error generating CREATE TABLE for " : String) =
          "-- " ++ "Error generating CREATE TABLE for " from rfl, String.append_assoc]

end DBValidator
